import Mathlib

/-!
Verification of the Harmony Hub remote platform
(`custom_components/remote/harmony.py`).

The Python module is shallowly embedded below.  Mutable entity state
(`self._current_activity`, `self._state`, `self._available`) becomes the
`HarmonyRemote` structure; each handler becomes a pure function from the old
state to the new state paired with the ordered list of observable effects it
performs (state pushes, adapter calls, file writes, log lines).  The hub
client adapter (the external `aioharmony` library) is represented at its
interface boundary by a `HarmonyClient` record carrying the cached
configuration snapshot: its name/ID lookup helpers are exact-match lookups in
that snapshot, and the result list returned by its batch `send_commands` call
is passed in as a parameter (the spec describes it as a per-step result
list).  Python string truthiness, `str.isdigit`, `int(...)` on digit
strings, and `str.strip` are modelled explicitly.
-/

/-- Python `str.isdigit` restricted to ASCII digit strings: true iff the
string is nonempty and every character is a decimal digit. -/
def pyIsDigit (s : String) : Bool :=
  !s.data.isEmpty && s.data.all Char.isDigit

/-- Value of a decimal digit list, as computed by Python `int` on a digit
string (leading zeros allowed). -/
def digitsToNat (l : List Char) : Nat :=
  l.foldl (fun n c => 10 * n + (c.toNat - 48)) 0

/-- Python `int(s)` for the strings the module feeds it: all-digit strings
and the literal `"-1"`. -/
def strToInt (s : String) : Int :=
  if s == "-1" then (-1 : Int) else Int.ofNat (digitsToNat s.data)

/-- Python `str.strip()`: drop whitespace from both ends. -/
def pyStrip (s : String) : String :=
  ⟨(((s.data.dropWhile Char.isWhitespace).reverse.dropWhile
      Char.isWhitespace).reverse)⟩

/-- Python truthiness of an optional string: `None` and `""` are falsy. -/
def pyTruthyStr : Option String → Bool
  | none => false
  | some s => !s.data.isEmpty

/-- Reverse lookup in a snapshot table: ID to name
(`get_activity_name` / `get_device_name` of the adapter). -/
def lookupName (table : List (Int × String)) (i : Int) : Option String :=
  (table.find? (fun p => p.1 == i)).map Prod.snd

/-- Forward lookup in a snapshot table: exact case-sensitive name to ID
(`get_activity_id` / `get_device_id` of the adapter). -/
def lookupId (table : List (Int × String)) (n : String) : Option Int :=
  (table.find? (fun p => p.2 == n)).map Prod.fst

/-- The hub client adapter at its interface boundary: the cached
configuration snapshot (activity and device tables), the activity it
currently reports, and the raw JSON configuration it exposes. -/
structure HarmonyClient where
  activities : List (Int × String)
  devices : List (Int × String)
  currentActivity : Int × Option String
  jsonConfig : String
deriving DecidableEq

/-- The identifier handed to `start_activity`/`SendCommandDevice`: either the
raw user string kept unchanged (numeric branch) or the integer ID returned by
the adapter's name lookup. -/
inductive ResolvedId
  | raw (s : String)
  | looked (id : Int)
deriving DecidableEq

/-- One element of the list built by `async_send_command`: a
`SendCommandDevice(device, command, delay=0)` record or a bare float delay. -/
inductive CommandStep
  | send (device : String) (command : String) (delay : ℚ)
  | pause (secs : ℚ)
deriving DecidableEq

/-- One element of the result list returned by the adapter's
`send_commands`; `code = 0` means success. -/
structure CommandResult where
  command : String
  device : String
  code : Nat
  msg : String
deriving DecidableEq

/-- Observable effects a handler performs, in order. -/
inductive Effect
  | scheduleUpdate
  | writeAttempt (content : String)
  | logError
  | logWarning (result : CommandResult)
  | startActivity (id : ResolvedId)
  | powerOff
  | sendCommands (steps : List CommandStep)
deriving DecidableEq

/-- The mutable and constructor-supplied fields of `HarmonyRemote`. -/
structure HarmonyRemote where
  name : String
  host : String
  port : Nat
  state : Option Bool
  currentActivity : Option String
  defaultActivity : Option String
  configPath : String
  delaySecs : ℚ
  available : Bool
deriving DecidableEq

/-- `HarmonyRemote.__init__`: `_state = None`, `_current_activity = None`,
`_available = True`. -/
def initHarmonyRemote (name host : String) (port : Nat)
    (activity : Option String) (outPath : String) (delaySecs : ℚ) :
    HarmonyRemote :=
  { name := name, host := host, port := port, state := none,
    currentActivity := none, defaultActivity := activity,
    configPath := outPath, delaySecs := delaySecs, available := true }

/-- The `is_on` property:
`self._current_activity not in [None, 'PowerOff']`. -/
def is_on (hr : HarmonyRemote) : Bool :=
  decide (hr.currentActivity ∉ ([none, some "PowerOff"] : List (Option String)))

/-- `new_activity`: record the reported activity name, derive `_state`
(`bool(self._current_activity != 'PowerOff')`), schedule a state push. -/
def new_activity (info : Int × Option String) (hr : HarmonyRemote) :
    HarmonyRemote × List Effect :=
  ({ hr with currentActivity := info.2,
             state := some (decide (info.2 ≠ some "PowerOff")) },
   [Effect.scheduleUpdate])

/-- `write_config_file`: one attempt to dump `self._client.json_config` to
the config path; an `IOError` is caught and logged, nothing is retried and no
entity field is touched.  `writeOk` says whether the disk write succeeds. -/
def write_config_file (client : HarmonyClient) (writeOk : Bool) :
    List Effect :=
  Effect.writeAttempt client.jsonConfig ::
    (if writeOk then [] else [Effect.logError])

/-- `new_config`: run `new_activity` on the client's current activity, then
(redundantly) re-assign `_current_activity`/`_state` inline, schedule another
push, and call `write_config_file`. -/
def new_config (client : HarmonyClient) (writeOk : Bool)
    (hr : HarmonyRemote) : HarmonyRemote × List Effect :=
  let r1 := new_activity client.currentActivity hr
  let hr2 := { r1.1 with
                 currentActivity := client.currentActivity.2,
                 state := some (decide (client.currentActivity.2 ≠ some "PowerOff")) }
  (hr2, r1.2 ++ [Effect.scheduleUpdate] ++ write_config_file client writeOk)

/-- `got_connected`: if `self._available` is false the hub was disconnected
before, so `new_config()` runs first; then `_available = True`. -/
def got_connected (client : HarmonyClient) (writeOk : Bool)
    (hr : HarmonyRemote) : HarmonyRemote × List Effect :=
  if hr.available then ({ hr with available := true }, [])
  else
    let r := new_config client writeOk hr
    ({ r.1 with available := true }, r.2)

/-- `async_turn_off`: delegate to the adapter's `power_off()`. -/
def async_turn_off (hr : HarmonyRemote) : HarmonyRemote × List Effect :=
  (hr, [Effect.powerOff])

/-- Activity resolution inside `async_turn_on`: if the string is all digits
or exactly `"-1"` and the reverse lookup on its integer value is truthy, keep
the raw string as the ID; otherwise strip it and do the forward name
lookup. -/
def resolveActivity (acts : List (Int × String)) (activity : String) :
    Option ResolvedId :=
  let idCand : Option ResolvedId :=
    if pyIsDigit activity || activity == "-1" then
      if pyTruthyStr (lookupName acts (strToInt activity)) then
        some (ResolvedId.raw activity)
      else none
    else none
  match idCand with
  | some r => some r
  | none => (lookupId acts (pyStrip activity)).map ResolvedId.looked

/-- Device resolution inside `async_send_command`: same shape as
`resolveActivity` but the numeric branch tests only `device.isdigit()` —
there is no `"-1"` special case for devices. -/
def resolveDevice (devs : List (Int × String)) (device : String) :
    Option ResolvedId :=
  let idCand : Option ResolvedId :=
    if pyIsDigit device then
      if pyTruthyStr (lookupName devs (strToInt device)) then
        some (ResolvedId.raw device)
      else none
    else none
  match idCand with
  | some r => some r
  | none => (lookupId devs (pyStrip device)).map ResolvedId.looked

/-- `async_turn_on`: pick the requested or default activity; a falsy value is
an error; resolution failure is logged and the call returns with no adapter
command; otherwise `start_activity(activity_id)` is issued and
`_state = True`. -/
def async_turn_on (client : HarmonyClient) (hr : HarmonyRemote)
    (activityArg : Option String) : HarmonyRemote × List Effect :=
  let activity : Option String :=
    match activityArg with
    | some a => some a
    | none => hr.defaultActivity
  match activity with
  | some a =>
      if a ≠ "" then
        match resolveActivity client.activities a with
        | some rid => ({ hr with state := some true },
                       [Effect.startActivity rid])
        | none => (hr, [Effect.logError])
      else (hr, [Effect.logError])
  | none => (hr, [Effect.logError])

/-- The inner loop body of `async_send_command` for one repeat: for each
command append a send step (built from the raw `device` string, delay 0) and,
when `delay_secs > 0`, a delay step. -/
def commandSteps (device : String) (commands : List String)
    (delaySecs : ℚ) : List CommandStep :=
  commands.flatMap (fun c =>
    CommandStep.send device c 0 ::
      (if 0 < delaySecs then [CommandStep.pause delaySecs] else []))

/-- The full `snd_cmnd_list` built by `async_send_command`:
`for _ in range(num_repeats)` around `commandSteps`. -/
def buildCommandList (device : String) (commands : List String)
    (numRepeats : Nat) (delaySecs : ℚ) : List CommandStep :=
  match numRepeats with
  | 0 => []
  | n + 1 => commandSteps device commands delaySecs ++
             buildCommandList device commands n delaySecs

/-- `async_send_command`: missing device or resolution failure is logged and
abandoned; otherwise the step list is submitted as one batch and every
element of the adapter's result list is logged with `_LOGGER.warning`. -/
def async_send_command (client : HarmonyClient) (hr : HarmonyRemote)
    (deviceArg : Option String) (commands : List String) (numRepeats : Nat)
    (delayArg : Option ℚ) (results : List CommandResult) :
    HarmonyRemote × List Effect :=
  match deviceArg with
  | none => (hr, [Effect.logError])
  | some device =>
      match resolveDevice client.devices device with
      | none => (hr, [Effect.logError])
      | some _ =>
          let delaySecs := delayArg.getD hr.delaySecs
          let steps := buildCommandList device commands numRepeats delaySecs
          (hr, Effect.sendCommands steps :: results.map Effect.logWarning)

/-- Recogniser for the batch-submission effect. -/
def isSendCommands : Effect → Bool
  | Effect.sendCommands _ => true
  | _ => false

/-- Recogniser for a config-file write attempt. -/
def isWriteAttempt : Effect → Bool
  | Effect.writeAttempt _ => true
  | _ => false

/-!
Connection-event trace semantics of `got_disconnected` / `got_connected`
under the module's cooperative scheduler.  `got_disconnected` sets
`_available = False` at once, sleeps 10 seconds, and pushes an unavailable
state update only if `_available` is still false when the sleep expires;
`got_connected` sets `_available = True`.  So `_available` at any instant is
decided by the latest callback delivered at or before that instant (the
constructor starts it at `True`), and the push scheduled by a disconnection
at time `t` fires exactly when `_available` re-reads false at `t + 10`.
-/

/-- A connect or disconnect callback delivered at a given time. -/
inductive ConnEvent
  | connect (t : ℚ)
  | disconnect (t : ℚ)
deriving DecidableEq

/-- Delivery time of a callback. -/
def ConnEvent.time : ConnEvent → ℚ
  | .connect t => t
  | .disconnect t => t

/-- Whether the callback is a connection. -/
def ConnEvent.isConnect : ConnEvent → Bool
  | .connect _ => true
  | .disconnect _ => false

/-- `_available` at instant `s` for a time-sorted trace: the latest callback
at or before `s` decides it; with no callback yet it is the constructor's
`True`. -/
def availableAt (trace : List ConnEvent) (s : ℚ) : Bool :=
  match (trace.filter (fun e => decide (e.time ≤ s))).getLast? with
  | none => true
  | some e => e.isConnect

/-- Times at which `got_disconnected` pushes an unavailable state update: a
disconnection at `t` pushes at `t + 10` iff `_available` is still false
then. -/
def unavailablePushTimes (trace : List ConnEvent) : List ℚ :=
  trace.filterMap (fun e =>
    match e with
    | ConnEvent.connect _ => none
    | ConnEvent.disconnect t =>
        if availableAt trace (t + 10) = false then some (t + 10) else none)

/-!  Platform setup (`async_setup_platform`) and the device registry. -/

/-- `DEFAULT_PORT = 8088`. -/
def DEFAULT_PORT : Nat := 8088

/-- `DEFAULT_DELAY_SECS` from the host framework's remote component. -/
def DEFAULT_DELAY_SECS : ℚ := 2 / 5

/-- A validated static configuration entry (the platform schema requires the
name and defaults the port and delay). -/
structure ConfigEntry where
  name : String
  host : Option String
  port : Nat
  activity : Option String
  delaySecs : ℚ
deriving DecidableEq

/-- A discovery event: hub name and host learned at runtime. -/
structure DiscoveryInfo where
  name : String
  host : String
deriving DecidableEq

/-- The module-level registry: `hass.data[CONF_DEVICE_CACHE]` (static entries
without a host, awaiting discovery) and the global `DEVICES` list. -/
structure SetupState where
  cache : List ConfigEntry
  devices : List HarmonyRemote
deriving DecidableEq

/-- The cached user configuration matching a discovered hub's name
(`next((c for c in cache if c.get(CONF_NAME) == discovery.get(CONF_NAME)), False)`). -/
def discoveredOverride (st : SetupState) (d : DiscoveryInfo) :
    Option ConfigEntry :=
  st.cache.find? (fun c => c.name == d.name)

/-- Port used for a discovered hub: the override's port if present, else
`DEFAULT_PORT`. -/
def discoveredPort (st : SetupState) (d : DiscoveryInfo) : Nat :=
  match discoveredOverride st d with
  | some o => o.port
  | none => DEFAULT_PORT

/-- `hass.config.path('harmony_' + slugify(name) + '.conf')`, with the slug
kept as the name itself. -/
def confFilePath (name : String) : String :=
  "harmony_" ++ name ++ ".conf"

/-- `async_setup_platform`: a discovery event merges any cached override,
drops the event when `(host, port)` already matches an active device, else
constructs and registers a new `HarmonyRemote`; a static entry with a host is
registered directly; a static entry without a host is cached.  The boolean
reports whether a device was constructed. -/
def async_setup_platform (st : SetupState) (config : ConfigEntry)
    (disc : Option DiscoveryInfo) : SetupState × Bool :=
  match disc with
  | some d =>
      let activity := match discoveredOverride st d with
        | some o => o.activity
        | none => none
      let delaySecs := match discoveredOverride st d with
        | some o => o.delaySecs
        | none => DEFAULT_DELAY_SECS
      let port := discoveredPort st d
      if (d.host, port) ∈ st.devices.map (fun h => (h.host, h.port)) then
        (st, false)
      else
        ({ st with devices := st.devices ++
            [initHarmonyRemote d.name d.host port activity
              (confFilePath d.name) delaySecs] }, true)
  | none =>
      match config.host with
      | some h =>
          ({ st with devices := st.devices ++
              [initHarmonyRemote config.name h config.port config.activity
                (confFilePath config.name) config.delaySecs] }, true)
      | none => ({ st with cache := st.cache ++ [config] }, false)

/-!  Concrete fixtures used by witnesses and counterexamples. -/

/-- A loaded snapshot that does contain the PowerOff activity with ID -1. -/
def sampleClient : HarmonyClient :=
  { activities := [((-1 : Int), "PowerOff"), ((10 : Int), "Watch TV")],
    devices := [((5 : Int), "TV")],
    currentActivity := ((10 : Int), some "Watch TV"),
    jsonConfig := "snapshot" }

/-- A loaded, nonempty snapshot whose tables do not mention ID -1 at all. -/
def noPowerOffClient : HarmonyClient :=
  { activities := [((10 : Int), "Watch TV")],
    devices := [((5 : Int), "TV")],
    currentActivity := ((10 : Int), some "Watch TV"),
    jsonConfig := "snapshot" }

/-- A freshly constructed remote. -/
def sampleRemote : HarmonyRemote :=
  initHarmonyRemote "hub" "10.0.0.2" 8088 none (confFilePath "hub") 1

/-- The same remote after a disconnection marked it unavailable. -/
def offlineRemote : HarmonyRemote :=
  { sampleRemote with available := false }

/-- A successful per-step command result (code 0). -/
def okResult : CommandResult :=
  { command := "Play", device := "TV", code := 0, msg := "OK" }

/-- A registry already holding `sampleRemote`, with an empty override
cache. -/
def sampleSetup : SetupState :=
  { cache := [], devices := [sampleRemote] }

/-- A static entry without a host (would be cached, not instantiated). -/
def sampleEntry : ConfigEntry :=
  { name := "hub", host := none, port := 8088, activity := none,
    delaySecs := 2 / 5 }

/-- A discovery event for the same host and port as `sampleRemote` but under
a different hub name. -/
def sampleDiscovery : DiscoveryInfo :=
  { name := "hub2", host := "10.0.0.2" }

/-!  Helper lemmas (shared; not themselves claim theorems). -/

/-- One repeat over a two-command list with a positive delay. -/
theorem commandSteps_two (dev c1 c2 : String) {D : ℚ} (hD : 0 < D) :
    commandSteps dev [c1, c2] D =
      [CommandStep.send dev c1 0, CommandStep.pause D,
       CommandStep.send dev c2 0, CommandStep.pause D] := by
  simp [commandSteps, hD]

/-- The built list is the repeat-block repeated `N` times. -/
theorem buildCommandList_two_shape (dev c1 c2 : String) (N : Nat) {D : ℚ}
    (hD : 0 < D) :
    buildCommandList dev [c1, c2] N D =
      (List.replicate N
        [CommandStep.send dev c1 0, CommandStep.pause D,
         CommandStep.send dev c2 0, CommandStep.pause D]).flatten := by
  induction N with
  | zero => simp [buildCommandList]
  | succ n ih =>
      simp [buildCommandList, commandSteps_two dev c1 c2 hD, ih,
        List.replicate_succ]

/-- C1 counterexample: with two commands, one repeat and delay 1, the list
submitted to the adapter has 4 steps, not `4·1 - 1 = 3`: the trailing delay
after the last command of the last repeat is not omitted. -/
theorem sendCommand_trailing_delay_counterexample :
    (buildCommandList "TV" ["Play", "Pause"] 1 1).length ≠ 4 * 1 - 1 := by
  decide

/-- C1 (amended): for a two-command list, repeat count `N ≥ 1` and delay
`D > 0`, the step sequence submitted to the adapter is `N` copies of
`[send c1, delay D, send c2, delay D]` and has length exactly `4N`; the
trailing delay after the last command of the last repeat is included, not
omitted. -/
theorem sendCommand_steps_length (dev c1 c2 : String) (N : Nat) (D : ℚ)
    (hN : 1 ≤ N) (hD : 0 < D) :
    buildCommandList dev [c1, c2] N D =
      (List.replicate N
        [CommandStep.send dev c1 0, CommandStep.pause D,
         CommandStep.send dev c2 0, CommandStep.pause D]).flatten ∧
    (buildCommandList dev [c1, c2] N D).length = 4 * N := by
  refine ⟨buildCommandList_two_shape dev c1 c2 N hD, ?_⟩
  rw [buildCommandList_two_shape dev c1 c2 N hD]
  simp [List.length_flatten, List.map_replicate, List.sum_replicate, mul_comm]

/-- Closed instance of `sendCommand_steps_length` at `N = 2`, `D = 1`. -/
theorem sendCommand_steps_length_witness :
    (buildCommandList "TV" ["Play", "Pause"] 2 1).length = 4 * 2 :=
  (sendCommand_steps_length "TV" "Play" "Pause" 2 1 (by norm_num)
    (by norm_num)).2

/-- C9: `is_on` is true exactly when the current activity is known and is not
the sentinel "PowerOff". -/
theorem is_on_iff (hr : HarmonyRemote) :
    is_on hr = true ↔
      hr.currentActivity ≠ none ∧ hr.currentActivity ≠ some "PowerOff" := by
  simp [is_on, not_or]

/-- C10: a freshly constructed manager reports `available = true` before any
adapter callback has been delivered. -/
theorem init_available (name host : String) (port : Nat)
    (activity : Option String) (outPath : String) (delaySecs : ℚ) :
    (initHarmonyRemote name host port activity outPath delaySecs).available
      = true := rfl

/-- C5: a configuration-changed callback performs exactly one config-file
write attempt, carrying the client's current snapshot content; the resulting
entity state is the same whether the write succeeds or fails (so a
persistence failure leaves `currentActivity`, `_state` and availability
untouched), availability is never modified, and a failing write produces only
an additional log line — no retry. -/
theorem new_config_persistence (client : HarmonyClient) (hr : HarmonyRemote)
    (ok okAlt : Bool) :
    ((new_config client ok hr).2.countP isWriteAttempt = 1 ∧
      Effect.writeAttempt client.jsonConfig ∈ (new_config client ok hr).2) ∧
    (new_config client ok hr).1 = (new_config client okAlt hr).1 ∧
    (new_config client ok hr).1.available = hr.available ∧
    write_config_file client false =
      [Effect.writeAttempt client.jsonConfig, Effect.logError] ∧
    write_config_file client true = [Effect.writeAttempt client.jsonConfig] := by
  cases ok <;> cases okAlt <;>
    simp [new_config, new_activity, write_config_file, isWriteAttempt,
      List.countP_cons, List.countP_nil]

/-- C8: when a "connected" callback arrives while the manager is unavailable,
the handler runs `new_config` (a full config refresh, identical to the
config-changed handler) on the pre-connection state and only then sets
`available := true`; when the manager is already available no refresh happens
and the state is unchanged. -/
theorem got_connected_refresh (client : HarmonyClient) (ok : Bool)
    (hr : HarmonyRemote) :
    (hr.available = false →
      got_connected client ok hr =
        ({ (new_config client ok hr).1 with available := true },
         (new_config client ok hr).2)) ∧
    (hr.available = true → got_connected client ok hr = (hr, [])) := by
  constructor
  · intro h
    simp [got_connected, h]
  · intro h
    cases hr
    simp only at h
    subst h
    simp [got_connected]

/-- Closed instance of `got_connected_refresh` on an unavailable remote. -/
theorem got_connected_refresh_witness :
    got_connected sampleClient true offlineRemote =
      ({ (new_config sampleClient true offlineRemote).1 with
          available := true },
       (new_config sampleClient true offlineRemote).2) :=
  (got_connected_refresh sampleClient true offlineRemote).1 rfl

/-- C4 counterexample: the disconnection at time 0 is followed by a
reconnection at time 5, well inside the 10-second grace window, yet its
grace timer still pushes an unavailable update at `0 + 10`, because a second
disconnection at time 7 reset `_available` to false before the first timer's
re-check — the trace pushes at both `0 + 10` and `7 + 10`.  So it is not
true over every trace that a disconnection reconnected within the grace
period triggers no unavailable push. -/
theorem grace_period_reconnected_push_counterexample :
    (0 : ℚ) < 5 ∧ (5 : ℚ) < 0 + 10 ∧
    unavailablePushTimes
      [ConnEvent.disconnect 0, ConnEvent.connect 5, ConnEvent.disconnect 7] =
        [0 + 10, 7 + 10] := by
  refine ⟨by norm_num, by norm_num, ?_⟩
  have havAll : ∀ s : ℚ, 7 ≤ s →
      availableAt [ConnEvent.disconnect 0, ConnEvent.connect 5,
        ConnEvent.disconnect 7] s = false := by
    intro s hs
    have h0 : ((0 : ℚ) ≤ s) = True := by simp; linarith
    have h5 : ((5 : ℚ) ≤ s) = True := by simp; linarith
    have h7 : ((7 : ℚ) ≤ s) = True := by simp; linarith
    simp [availableAt, ConnEvent.time, ConnEvent.isConnect, List.filter,
      List.getLast?, h0, h5, h7]
  have hav10 := havAll (10 : ℚ) (by norm_num)
  have hav17 := havAll ((7 : ℚ) + 10) (by norm_num)
  simp [unavailablePushTimes, List.filterMap_cons, hav10, hav17]

/-- C4 (amended): over every trace of disconnect/connect callbacks, an
unavailable state push occurs at time `s` exactly when some disconnection
was delivered at `s - 10` and the latest callback at or before `s` is still
a disconnection — the grace timer re-reads live availability at expiry.  In
particular, a lone disconnection at `t` followed by a reconnection within
the grace window triggers no unavailable push, and a lone disconnection with
no reconnection triggers exactly one, at `t + 10`; but a disconnection
reconnected within the grace window can still push at expiry when a later
disconnection made the manager unavailable again before its timer fired. -/
theorem grace_period_pushes (trace : List ConnEvent) (s t tr : ℚ)
    (h1 : t < tr) (h2 : tr < t + 10) :
    (s ∈ unavailablePushTimes trace ↔
      ConnEvent.disconnect (s - 10) ∈ trace ∧
        availableAt trace s = false) ∧
    unavailablePushTimes [ConnEvent.disconnect t, ConnEvent.connect tr] = [] ∧
    unavailablePushTimes [ConnEvent.disconnect t] = [t + 10] := by
  have hta : t ≤ t + 10 := by linarith
  have htr : tr ≤ t + 10 := le_of_lt h2
  refine ⟨?_, ?_, ?_⟩
  · constructor
    · intro hs
      obtain ⟨e, he, hf⟩ := List.mem_filterMap.mp hs
      cases e with
      | connect u => simp at hf
      | disconnect u =>
          simp only at hf
          by_cases hav : availableAt trace (u + 10) = false
          · rw [if_pos hav] at hf
            have hu : u + 10 = s := Option.some.inj hf
            have hus : u = s - 10 := by linarith
            subst hus
            have hss : s - 10 + 10 = s := by ring
            rw [hss] at hav
            exact ⟨he, hav⟩
          · rw [if_neg hav] at hf
            cases hf
    · rintro ⟨hmem, hav⟩
      refine List.mem_filterMap.mpr ⟨ConnEvent.disconnect (s - 10), hmem, ?_⟩
      have hss : s - 10 + 10 = s := by ring
      simp only [hss]
      rw [if_pos hav]
  · simp [unavailablePushTimes, availableAt, ConnEvent.time,
      ConnEvent.isConnect, hta, htr]
  · simp [unavailablePushTimes, availableAt, ConnEvent.time,
      ConnEvent.isConnect, hta]

/-- Closed instance of `grace_period_pushes` at `t = 0`, `t' = 5`, with the
push characterization read off at `s = 10` on the lone-disconnect trace. -/
theorem grace_period_pushes_witness :
    ((10 : ℚ) ∈ unavailablePushTimes [ConnEvent.disconnect 0] ↔
      ConnEvent.disconnect ((10 : ℚ) - 10) ∈ [ConnEvent.disconnect 0] ∧
        availableAt [ConnEvent.disconnect 0] 10 = false) ∧
    unavailablePushTimes [ConnEvent.disconnect 0, ConnEvent.connect 5] = [] ∧
    unavailablePushTimes [ConnEvent.disconnect 0] = [(0 : ℚ) + 10] :=
  grace_period_pushes [ConnEvent.disconnect 0] 10 0 5 (by norm_num)
    (by norm_num)

/-- C6: a discovery event whose `(host, port)` pair matches an already-active
manager is dropped — the registry and device list are unchanged, nothing is
constructed and no error is raised — and handling any discovery event
preserves distinctness of the active managers' `(host, port)` pairs. -/
theorem discovery_duplicate_dropped (st : SetupState) (config : ConfigEntry)
    (d : DiscoveryInfo)
    (hdup : (d.host, discoveredPort st d) ∈
      st.devices.map (fun h => (h.host, h.port))) :
    async_setup_platform st config (some d) = (st, false) ∧
    ∀ d2 : DiscoveryInfo,
      (st.devices.map (fun h => (h.host, h.port))).Nodup →
      ((async_setup_platform st config (some d2)).1.devices.map
        (fun h => (h.host, h.port))).Nodup := by
  constructor
  · simp only [async_setup_platform]
    rw [if_pos hdup]
  · intro d2 hnd
    simp only [async_setup_platform]
    split
    · exact hnd
    next hneg =>
      simp only [List.map_append, List.map_cons, List.map_nil,
        initHarmonyRemote]
      refine List.Nodup.append hnd (List.nodup_singleton _) ?_
      intro a ha hb
      simp only [List.mem_singleton] at hb
      subst hb
      exact hneg ha

/-- Closed instance of `discovery_duplicate_dropped` on a discovery event
matching the host and port of the already-registered `sampleRemote`. -/
theorem discovery_duplicate_dropped_witness :
    async_setup_platform sampleSetup sampleEntry (some sampleDiscovery) =
      (sampleSetup, false) :=
  (discovery_duplicate_dropped sampleSetup sampleEntry sampleDiscovery
    (by decide)).1

/-- Under a snapshot whose names are all nonempty, Python truthiness of a
reverse lookup agrees with the lookup having found an entry. -/
theorem pyTruthyStr_of_wf {t : List (Int × String)}
    (hw : ∀ p ∈ t, p.2 ≠ "") (i : Int) :
    pyTruthyStr (lookupName t i) = (lookupName t i).isSome := by
  cases h : t.find? (fun p => p.1 == i) with
  | none => simp [lookupName, h, pyTruthyStr]
  | some p =>
      have hp : p ∈ t := List.mem_of_find?_eq_some h
      have hne : p.2 ≠ "" := hw p hp
      have hd : p.2.data ≠ [] := by
        intro hnil
        apply hne
        cases hs : p.2 with
        | mk l =>
            rw [hs] at hnil
            simp at hnil
            rw [hnil]
      simp [lookupName, h, pyTruthyStr, List.isEmpty_iff, hd]

/-- C2 counterexample: for the device role the literal `"-1"` is not special
cased: with a device snapshot containing ID `-1`, the reverse ID-to-name
lookup for `"-1"` succeeds, yet resolution falls through to the forward name
lookup and fails instead of returning the ID unchanged. -/
theorem resolve_device_sentinel_counterexample :
    lookupName [((-1 : Int), "Mystery")] (strToInt "-1") = some "Mystery" ∧
    resolveDevice [((-1 : Int), "Mystery")] "-1" = none := by decide

/-- C2 (amended): over snapshots with nonempty names — for the activity
role, an all-digit or `"-1"` identifier whose reverse ID-to-name lookup
succeeds resolves to itself unchanged, and otherwise resolution is the
forward name-to-ID lookup on the whitespace-trimmed identifier; for the
device role the same holds except only all-digit identifiers take the ID
path (`"-1"` is not special-cased); when resolution fails the operation is
abandoned with a logged error and no adapter command and no retry. -/
theorem resolve_contract (client : HarmonyClient) (s : String)
    (hA : ∀ p ∈ client.activities, p.2 ≠ "")
    (hD : ∀ p ∈ client.devices, p.2 ≠ "") :
    ((pyIsDigit s || s == "-1") = true →
      (lookupName client.activities (strToInt s)).isSome = true →
      resolveActivity client.activities s = some (ResolvedId.raw s)) ∧
    ((pyIsDigit s || s == "-1") = false ∨
        lookupName client.activities (strToInt s) = none →
      resolveActivity client.activities s =
        (lookupId client.activities (pyStrip s)).map ResolvedId.looked) ∧
    (pyIsDigit s = true →
      (lookupName client.devices (strToInt s)).isSome = true →
      resolveDevice client.devices s = some (ResolvedId.raw s)) ∧
    (pyIsDigit s = false ∨ lookupName client.devices (strToInt s) = none →
      resolveDevice client.devices s =
        (lookupId client.devices (pyStrip s)).map ResolvedId.looked) ∧
    (∀ hr : HarmonyRemote, resolveActivity client.activities s = none →
      async_turn_on client hr (some s) = (hr, [Effect.logError])) ∧
    (∀ (hr : HarmonyRemote) (cmds : List String) (n : Nat) (dly : Option ℚ)
        (results : List CommandResult),
      resolveDevice client.devices s = none →
      async_send_command client hr (some s) cmds n dly results =
        (hr, [Effect.logError])) := by
  have htrA := pyTruthyStr_of_wf hA (strToInt s)
  have htrD := pyTruthyStr_of_wf hD (strToInt s)
  refine ⟨?_, ?_, ?_, ?_, ?_, ?_⟩
  · intro hcond hsome
    simp [resolveActivity, hcond, htrA, hsome]
  · intro hcase
    rcases hcase with hcond | hnone
    · simp [resolveActivity, hcond]
    · by_cases hcond : (pyIsDigit s || s == "-1") = true
      · simp [resolveActivity, hcond, hnone, pyTruthyStr]
      · simp at hcond
        simp [resolveActivity, hcond]
  · intro hcond hsome
    simp [resolveDevice, hcond, htrD, hsome]
  · intro hcase
    rcases hcase with hcond | hnone
    · simp [resolveDevice, hcond]
    · by_cases hcond : pyIsDigit s = true
      · simp [resolveDevice, hcond, hnone, pyTruthyStr]
      · simp at hcond
        simp [resolveDevice, hcond]
  · intro hr hnone
    by_cases hs : s = ""
    · simp [async_turn_on, hs]
    · simp [async_turn_on, hs, hnone]
  · intro hr cmds n dly results hnone
    simp [async_send_command, hnone]

/-- Closed instance of `resolve_contract`: the numeric activity identifier
`"10"` resolves to itself against `sampleClient`. -/
theorem resolve_contract_witness :
    resolveActivity sampleClient.activities "10" =
      some (ResolvedId.raw "10") :=
  (resolve_contract sampleClient "10" (by decide) (by decide)).1
    (by decide) (by decide)

/-- C3 counterexample: against a loaded, nonempty snapshot that has no
activity record with ID `-1`, turning on with `"-1"` resolves nothing and
issues no adapter command at all (only an error log), while `turn_off`
issues the adapter's `power_off` primitive — the two are not equivalent and
the sentinel is not honored absent a matching snapshot entry. -/
theorem turn_on_sentinel_counterexample :
    (async_turn_on noPowerOffClient sampleRemote (some "-1")).2 =
      [Effect.logError] ∧
    (async_turn_off sampleRemote).2 = [Effect.powerOff] ∧
    (async_turn_on noPowerOffClient sampleRemote (some "-1")).2 ≠
      (async_turn_off sampleRemote).2 := by decide

/-- C3 (amended): turning on with activity `"-1"` succeeds exactly when the
snapshot's reverse ID-to-name lookup for `-1` is truthy (e.g. the PowerOff
record is present); it then issues `start_activity("-1")` to the adapter —
power-off via `turn_on "-1"` is delegated to the activity-start primitive
with the sentinel ID, whereas `turn_off` issues the separate `power_off()`
adapter primitive. -/
theorem turn_on_sentinel (client : HarmonyClient) (hr : HarmonyRemote)
    (h : pyTruthyStr (lookupName client.activities (-1)) = true) :
    async_turn_on client hr (some "-1") =
      ({ hr with state := some true },
       [Effect.startActivity (ResolvedId.raw "-1")]) ∧
    (async_turn_off hr).2 = [Effect.powerOff] := by
  have hst : strToInt "-1" = -1 := by decide
  have hc : (pyIsDigit "-1" || "-1" == "-1") = true := by decide
  have hne : ("-1" : String) ≠ "" := by decide
  constructor
  · simp [async_turn_on, resolveActivity, hc, hst, h, hne]
  · rfl

/-- Closed instance of `turn_on_sentinel` against `sampleClient`, whose
snapshot carries the PowerOff record with ID `-1`. -/
theorem turn_on_sentinel_witness :
    async_turn_on sampleClient sampleRemote (some "-1") =
      ({ sampleRemote with state := some true },
       [Effect.startActivity (ResolvedId.raw "-1")]) ∧
    (async_turn_off sampleRemote).2 = [Effect.powerOff] :=
  turn_on_sentinel sampleClient sampleRemote (by decide)

/-- C7 counterexample: a per-step result with code 0 (success) is still
logged by the result loop — zero-code steps are reported, contradicting the
claim that only failed steps are. -/
theorem zero_code_result_logged_counterexample :
    okResult.code = 0 ∧
    Effect.logWarning okResult ∈
      (async_send_command sampleClient sampleRemote (some "TV") ["Play"] 1
        (some 0) [okResult]).2 := by decide

/-- C7 (amended): once the device resolves, `async_send_command` submits the
built step list as exactly one batch call and logs every entry of the
adapter's result list individually, with no filtering on the result code, no
retry and no further batch submission (no rollback). -/
theorem send_command_result_logging (client : HarmonyClient)
    (hr : HarmonyRemote) (device : String) (commands : List String)
    (numRepeats : Nat) (delayArg : Option ℚ) (results : List CommandResult)
    (rid : ResolvedId)
    (h : resolveDevice client.devices device = some rid) :
    (async_send_command client hr (some device) commands numRepeats delayArg
        results).2 =
      Effect.sendCommands
          (buildCommandList device commands numRepeats
            (delayArg.getD hr.delaySecs)) ::
        results.map Effect.logWarning ∧
    (async_send_command client hr (some device) commands numRepeats delayArg
        results).2.countP isSendCommands = 1 := by
  have hzero : (results.map Effect.logWarning).countP isSendCommands = 0 := by
    rw [List.countP_eq_zero]
    intro e he
    obtain ⟨r, _, rfl⟩ := List.mem_map.mp he
    simp [isSendCommands]
  constructor
  · simp [async_send_command, h]
  · simp [async_send_command, h, List.countP_cons, hzero, isSendCommands]

/-- Closed instance of `send_command_result_logging`: one batch submission
and the zero-code result logged. -/
theorem send_command_result_logging_witness :
    (async_send_command sampleClient sampleRemote (some "TV") ["Play"] 1
        (some 0) [okResult]).2 =
      Effect.sendCommands
          (buildCommandList "TV" ["Play"] 1
            ((some (0 : ℚ)).getD sampleRemote.delaySecs)) ::
        [okResult].map Effect.logWarning :=
  (send_command_result_logging sampleClient sampleRemote "TV" ["Play"] 1
    (some 0) [okResult] (ResolvedId.looked 5) (by decide)).1
